import Mathlib

/-!
Verification of the keyword-triggered business-data chatbot.

The development shallowly embeds the two source files of the repository:

* `src/Dataset/dataset.py` — the synthetic-data generator
  `generate_business_data`.  Its random draws become explicit parameters
  (`GenParams`); the predicate `SamplerOK` records the ranges the numpy
  samplers guarantee (`np.random.uniform(lo, hi)` and
  `np.random.randint(lo, hi)` both sample the half-open interval
  `[lo, hi)`).  Float arithmetic is idealised as exact rationals.

* `src/Prompt/promt.py` — the question classifier `analyze_question`,
  the eight analysis routines, and the chat-transcript update.
  Tables are lists of rows (association lists from column names to
  cells); numeric columns are assumed numeric-or-null, which is what the
  upload path guarantees (`pd.to_numeric(..., errors='coerce')`).
  Pandas float division is modelled by `PVal`, which distinguishes
  NaN (`0/0`) from signed infinity (`x/0`, `x ≠ 0`), because
  `.fillna(0)` replaces only NaN.  Routines return
  `Except PdError AnalysisResult`: an uncaught pandas exception
  (KeyError from `.agg` on an absent column, IndexError from
  `.index[0]` on an empty frame, AttributeError from `.dt` on a
  non-datetime column, ValueError from `idxmax`/`strftime` on empty
  data) is an `.error` value.  Number formatting inside report strings
  is abstracted by a fixed rational printer; the literal message
  strings that the spec quotes are kept verbatim.
-/

/-! ### Python string containment (`pat in s`) and lower-casing -/

/-- `listStartsWith pat s`: `s` begins with `pat` (character lists). -/
def listStartsWith : List Char → List Char → Bool
  | [], _ => true
  | _ :: _, [] => false
  | a :: as, b :: bs => a == b && listStartsWith as bs

/-- Python's substring test `pat in s` on character lists. -/
def pyContains (pat : List Char) : List Char → Bool
  | [] => pat.isEmpty
  | c :: rest => listStartsWith pat (c :: rest) || pyContains pat rest

/-- Python's `pat in s` for a string pattern against a character list. -/
def pyIn (pat : String) (s : List Char) : Bool := pyContains pat.toList s

/-- Python's `str.lower()` (ASCII case folding, as used by the source). -/
def lowerChars (l : List Char) : List Char := l.map Char.toLower

/-! ### Half-even rounding (Python `round`, numpy/pandas `.round`) -/

/-- Round to the nearest integer, ties to even (banker's rounding, the
behaviour of Python's `round` and numpy's rounding on floats). -/
def rne (q : ℚ) : ℤ :=
  if q - ⌊q⌋ < 1/2 then ⌊q⌋
  else if 1/2 < q - ⌊q⌋ then ⌊q⌋ + 1
  else if ⌊q⌋ % 2 = 0 then ⌊q⌋ else ⌊q⌋ + 1

/-- `round(q, n)`: round `q` to `n` decimal places. -/
def roundTo (n : ℕ) (q : ℚ) : ℚ := (rne (q * 10 ^ n) : ℚ) / 10 ^ n

/-! ### Pandas float values: numbers, NaN and signed infinity -/

/-- Result of a pandas float computation: a finite value, NaN, or ±∞. -/
inductive PVal where
  | num (q : ℚ)
  | nan
  | inf
  | ninf
deriving DecidableEq

/-- Float division `a / b` as pandas performs it on numeric columns:
`b ≠ 0` gives a finite quotient, `0/0` gives NaN, and `a/0` with
`a ≠ 0` gives a signed infinity (no exception). -/
def pdiv (a b : ℚ) : PVal :=
  if b ≠ 0 then .num (a / b)
  else if a = 0 then .nan
  else if 0 < a then .inf
  else .ninf

/-- Multiply a pandas value by a positive rational constant. -/
def pvScale (c : ℚ) : PVal → PVal
  | .num q => .num (q * c)
  | .nan => .nan
  | .inf => .inf
  | .ninf => .ninf

/-- `.round(n)` on a pandas value (NaN and ±∞ are unchanged). -/
def pvRound (n : ℕ) : PVal → PVal
  | .num q => .num (roundTo n q)
  | .nan => .nan
  | .inf => .inf
  | .ninf => .ninf

/-- `.fillna(0)`: replaces NaN by 0 and nothing else (±∞ stay). -/
def pvFillna0 : PVal → PVal
  | .nan => .num 0
  | v => v

/-- The margin column shared by the Regional, Margin and Category
routines: `(Profit / Revenue * 100).round(2).fillna(0)`
(promt.py lines 116, 233, 463). -/
def marginOf (p r : ℚ) : PVal := pvFillna0 (pvRound 2 (pvScale 100 (pdiv p r)))

/-! ### The synthetic-data generator (src/Dataset/dataset.py) -/

/-- `REGIONS` (dataset.py line 18). -/
def regionList : List String := ["North", "South", "East", "West"]

/-- `PRODUCT_CATEGORIES` (dataset.py line 19). -/
def categoryList : List String := ["Electronics", "Services", "Software", "Apparel"]

/-- `CAMPAIGN_NAMES` (dataset.py line 27). -/
def campaignList : List String := ["Spring Promo", "Summer Sale", "Holiday Sale", "Back-to-School", "Q1 Launch"]

/-- The random draws made for one record of `generate_business_data`,
as explicit parameters. -/
structure GenParams where
  region : String
  category : String
  campaign : String
  units : ℕ
  basePrice : ℚ
  costFrac : ℚ
  invLevel : ℕ
  returnRate : ℚ
deriving DecidableEq

/-- Lower bound of the category-specific base-price range
(dataset.py lines 49-56; the final `else` branch is Apparel). -/
def priceLo (cat : String) : ℚ :=
  if cat = "Electronics" then 150
  else if cat = "Software" then 500
  else if cat = "Services" then 100
  else 20

/-- Upper bound of the category-specific base-price range. -/
def priceHi (cat : String) : ℚ :=
  if cat = "Electronics" then 800
  else if cat = "Software" then 2500
  else if cat = "Services" then 600
  else 150

/-- The ranges guaranteed by the samplers in `generate_business_data`:
`np.random.uniform(lo, hi)` and `np.random.randint(lo, hi)` return
values in the half-open interval `[lo, hi)`, and the categorical draws
return members of the fixed lists. -/
def SamplerOK (p : GenParams) : Prop :=
  p.region ∈ regionList ∧
  p.category ∈ categoryList ∧
  p.campaign ∈ campaignList ∧
  10 ≤ p.units ∧ p.units < 300 ∧
  priceLo p.category ≤ p.basePrice ∧ p.basePrice < priceHi p.category ∧
  1/2 ≤ p.costFrac ∧ p.costFrac < 3/4 ∧
  100 ≤ p.invLevel ∧ p.invLevel < 5000 ∧
  1/100 ≤ p.returnRate ∧ p.returnRate < 1/10

instance : DecidablePred SamplerOK := fun p => by
  unfold SamplerOK
  infer_instance

/-- `revenue *= 1.15` when region is North and category Electronics
(dataset.py lines 62-63). -/
def biasNE (p : GenParams) (r : ℚ) : ℚ :=
  if p.region = "North" ∧ p.category = "Electronics" then r * (23/20) else r

/-- `revenue *= 1.2` when region is South and category Apparel
(dataset.py lines 66-67). -/
def biasSA (p : GenParams) (r : ℚ) : ℚ :=
  if p.region = "South" ∧ p.category = "Apparel" then r * (6/5) else r

/-- `revenue *= 1.25` when `'Holiday' in campaign_name`
(dataset.py lines 70-71). -/
def biasHoliday (p : GenParams) (r : ℚ) : ℚ :=
  if pyIn "Holiday" p.campaign.toList then r * (5/4) else r

/-- `revenue *= 1.1` when `'Summer' in campaign_name`
(dataset.py lines 72-73). -/
def biasSummer (p : GenParams) (r : ℚ) : ℚ :=
  if pyIn "Summer" p.campaign.toList then r * (11/10) else r

/-- The `revenue` variable after the sequential bias updates
(dataset.py lines 59-73). -/
def rawRevenue (p : GenParams) : ℚ :=
  biasSummer p (biasHoliday p (biasSA p (biasNE p ((p.units : ℚ) * p.basePrice))))

/-- `cost = revenue * np.random.uniform(0.5, 0.75)` (dataset.py line 76). -/
def rawCost (p : GenParams) : ℚ := rawRevenue p * p.costFrac

/-- `profit = revenue - cost` (dataset.py line 77). -/
def rawProfit (p : GenParams) : ℚ := rawRevenue p - rawCost p

/-- Whether the category counts as physical goods:
`category in ['Electronics', 'Apparel']` (dataset.py line 81). -/
def physicalCat (p : GenParams) : Prop :=
  p.category = "Electronics" ∨ p.category = "Apparel"

instance : DecidablePred physicalCat := fun p => by
  unfold physicalCat
  infer_instance

/-- The serialised fields of one generated record
(dataset.py lines 76-127; monetary fields stored rounded to 2 decimal
places, the return rate to 3). -/
structure GenRecord where
  revenue : ℚ
  cost : ℚ
  profit : ℚ
  profitMarginPct : ℚ
  unitsSold : ℕ
  inventoryLevel : Option ℕ
  returnRate : ℚ
  avgOrderValue : ℚ
deriving DecidableEq

/-- One record of `generate_business_data`, given the random draws. -/
def genRecord (p : GenParams) : GenRecord where
  revenue := roundTo 2 (rawRevenue p)
  cost := roundTo 2 (rawCost p)
  profit := roundTo 2 (rawProfit p)
  profitMarginPct := roundTo 2 (rawProfit p / rawRevenue p * 100)
  unitsSold := p.units
  inventoryLevel := if physicalCat p then some p.invLevel else none
  returnRate := roundTo 3 (if physicalCat p then p.returnRate else 0)
  avgOrderValue := roundTo 2 (rawRevenue p / (p.units : ℚ))

/-! ### Concrete parameter vectors used as witnesses -/

/-- Sampler-valid draws: Software sale, no bias factor applies. -/
def genpPlain : GenParams where
  region := "East"
  category := "Software"
  campaign := "Q1 Launch"
  units := 100
  basePrice := 1000
  costFrac := 3/5
  invLevel := 200
  returnRate := 1/20

/-- Sampler-valid draws hitting the North-Electronics and Holiday
bias factors. -/
def genpBias : GenParams where
  region := "North"
  category := "Electronics"
  campaign := "Holiday Sale"
  units := 50
  basePrice := 200
  costFrac := 1/2
  invLevel := 500
  returnRate := 1/20

/-- Sampler-valid draws whose return-rate draw is exactly the left
endpoint `0.01` of `np.random.uniform(0.01, 0.1)`. -/
def genpEdge : GenParams where
  region := "West"
  category := "Electronics"
  campaign := "Spring Promo"
  units := 30
  basePrice := 300
  costFrac := 3/5
  invLevel := 100
  returnRate := 1/100

/-! ### Tables (pandas DataFrames after the upload~coercion step) -/

/-- One table cell: null (NaN/NaT), a number, a string, or a date. -/
inductive Cell where
  | null
  | num (q : ℚ)
  | str (s : String)
  | date (y m d : ℕ)
deriving DecidableEq

/-- One row: an association list from column names to cells. -/
abbrev RowT := List (String × Cell)

/-- A table: its column list and its rows. -/
structure DF where
  cols : List String
  rows : List RowT
deriving DecidableEq

/-- `c in df.columns`. -/
def DF.hasCol (df : DF) (c : String) : Bool := df.cols.contains c

/-- The cell of row `r` in column `c` (null when the row has no entry). -/
def getCell (r : RowT) (c : String) : Cell :=
  match r.find? (fun p => p.1 == c) with
  | some p => p.2
  | none => .null

/-- Numeric view of a cell. -/
def cellNum : Cell → Option ℚ
  | .num q => some q
  | _ => none

/-- Fixed rational printer; the report strings' number formatting
(`" ... "` f-string specs) is abstracted by it. -/
def fmtQ (q : ℚ) : String := toString q.num ++ "d" ++ toString q.den

/-- Printer for pandas values. -/
def fmtP : PVal → String
  | .num q => fmtQ q
  | .nan => "nan"
  | .inf => "inf"
  | .ninf => "-inf"

/-- Printer for cells (used for group labels in reports). -/
def cellStr : Cell → String
  | .null => "nan"
  | .num q => fmtQ q
  | .str s => s
  | .date y m d => toString y ++ "-" ++ toString m ++ "-" ++ toString d

/-- First-occurrence deduplication (the distinct group keys). -/
def dedupF [DecidableEq α] : List α → List α
  | [] => []
  | a :: as => a :: dedupF (as.filter (fun b => decide (b ≠ a)))
termination_by l => l.length
decreasing_by
  simp only [List.length_cons]
  exact Nat.lt_succ_of_le (List.length_filter_le _ _)

/-- Insert `a` into a list sorted by the strict precedence `bef`,
after every element that strictly precedes it (stable insertion). -/
def insSorted (bef : α → α → Bool) (a : α) : List α → List α
  | [] => [a]
  | b :: bs => if bef b a then b :: insSorted bef a bs else a :: b :: bs

/-- Stable sort by the strict precedence `bef` (models pandas
`sort_values`; ties keep their incoming order). -/
def sortByB (bef : α → α → Bool) (l : List α) : List α :=
  l.foldr (insSorted bef) []

/-- Strict precedence of pandas values in a descending
`sort_values`: ∞ first, then finite values in descending order, then
−∞; NaN is placed last (`na_position='last'`). -/
def pvDescBefore : PVal → PVal → Bool
  | .nan, _ => false
  | .num a, .num b => decide (b < a)
  | .num _, .nan => true
  | .num _, .inf => false
  | .num _, .ninf => true
  | .inf, .nan => true
  | .inf, .inf => false
  | .inf, .num _ => true
  | .inf, .ninf => true
  | .ninf, .nan => true
  | .ninf, _ => false

/-- `v >= c` on a pandas value (NaN compares false). -/
def pvGE (v : PVal) (c : ℚ) : Bool :=
  match v with
  | .num q => decide (c ≤ q)
  | .inf => true
  | _ => false

/-- Float addition on pandas values (NaN dominant, `∞ + (−∞) = NaN`). -/
def pvAdd : PVal → PVal → PVal
  | .nan, _ => .nan
  | _, .nan => .nan
  | .inf, .ninf => .nan
  | .ninf, .inf => .nan
  | .inf, _ => .inf
  | _, .inf => .inf
  | .ninf, _ => .ninf
  | _, .ninf => .ninf
  | .num a, .num b => .num (a + b)

/-- Divide a pandas value by a count. -/
def pvDivNat (v : PVal) (n : ℕ) : PVal :=
  match v with
  | .num q => .num (q / (n : ℚ))
  | x => x

/-- `Series.mean()` over already-computed pandas values
(`skipna=True`: NaN entries are dropped; empty mean is NaN). -/
def pvMean (l : List PVal) : PVal :=
  let vs := l.filter (fun v => decide (v ≠ PVal.nan))
  if vs.length = 0 then .nan
  else pvDivNat (vs.foldl pvAdd (.num 0)) vs.length

/-- Column sum over rows: pandas `'sum'` skips nulls, an all-null or
empty column sums to 0. -/
def colSum (rs : List RowT) (c : String) : ℚ :=
  (rs.map (fun r => (cellNum (getCell r c)).getD 0)).sum

/-- Column mean over rows: pandas `'mean'` averages the non-null
values; with none it is NaN. -/
def colMean (rs : List RowT) (c : String) : PVal :=
  let vs := rs.filterMap (fun r => cellNum (getCell r c))
  pdiv vs.sum (vs.length : ℚ)

/-- The cells of one column. -/
def colCells (df : DF) (c : String) : List Cell :=
  df.rows.map (fun r => getCell r c)

/-- `groupby(c)` keys: distinct non-null cells of the column (pandas
drops null keys). -/
def groupKeys (df : DF) (c : String) : List Cell :=
  dedupF ((colCells df c).filter (fun x => decide (x ≠ Cell.null)))

/-- The rows of one group. -/
def groupRows (df : DF) (c : String) (k : Cell) : List RowT :=
  df.rows.filter (fun r => decide (getCell r c = k))

/-- Uncaught pandas exceptions an analysis routine can raise. -/
inductive PdError where
  | keyError (c : String)
  | indexError
  | attrError
  | valueError
deriving DecidableEq

/-- A renderer-agnostic chart description: kind plus labelled values. -/
structure ChartSpec where
  kind : String
  data : List (String × PVal)
deriving DecidableEq

/-- The secondary aggregated table of a result. -/
abbrev TableOut := List (String × List PVal)

/-- A routine's result: report text, optional chart, optional table. -/
structure AnalysisResult where
  text : String
  chart : Option ChartSpec
  table : Option TableOut
deriving DecidableEq

/-! ### Regional routine (promt.py lines 106-155) -/

/-- The soft-failure message of `analyze_regional_performance`
(promt.py line 108), kept verbatim. -/
def regionalMissingMsg : String :=
  "Regional analysis requires 'Region' and 'Revenue' columns in your data."

/-- One aggregated group of the Regional and Margin routines:
`.agg` sums of Revenue/Profit/Units_Sold, `.round(2)`, and the margin
column `(Profit / Revenue * 100).round(2).fillna(0)`. -/
structure SumGroup where
  key : Cell
  revenue : ℚ
  profit : ℚ
  units : ℚ
  margin : PVal
deriving DecidableEq

/-- Build one aggregated group for grouping column `c`. -/
def mkSumGroup (df : DF) (c : String) (k : Cell) : SumGroup :=
  let rs := groupRows df c k
  let rev := roundTo 2 (colSum rs "Revenue")
  let prof := roundTo 2 (colSum rs "Profit")
  { key := k, revenue := rev, profit := prof,
    units := roundTo 2 (colSum rs "Units_Sold"), margin := marginOf prof rev }

/-- Placeholder group (an index access on an empty frame raises
instead of producing it). -/
def sgDefault : SumGroup :=
  { key := .null, revenue := 0, profit := 0, units := 0, margin := .nan }

/-- `df.groupby('Region').agg(...)` with the margin column. -/
def regionalGroups (df : DF) : List SumGroup :=
  (groupKeys df "Region").map (mkSumGroup df "Region")

/-- `regional_data.sort_values('Revenue', ascending=False)`. -/
def regionalGroupsSorted (df : DF) : List SumGroup :=
  sortByB (fun a b => decide (b.revenue < a.revenue)) (regionalGroups df)

/-- The Regional report text (formatting abstracted). -/
def regionalTextFor (top : SumGroup) (total : ℚ) (gs : List SumGroup) : String :=
  "Regional Performance Analysis. Top Performing Region: " ++ cellStr top.key
    ++ " (" ++ fmtQ top.revenue ++ " - "
    ++ fmtP (pvRound 1 (pvScale 100 (pdiv top.revenue total)))
    ++ " pct of total revenue). Total Revenue Across All Regions: "
    ++ fmtQ total
    ++ String.join (gs.map (fun g =>
        " | " ++ cellStr g.key ++ ": " ++ fmtQ g.revenue ++ " revenue, "
          ++ fmtP g.margin ++ " pct profit margin"))

/-- The successful Regional result. -/
def regionalOkResult (df : DF) : AnalysisResult :=
  let gs := regionalGroupsSorted df
  let total := (gs.map (fun g => g.revenue)).sum
  { text := regionalTextFor (gs.headD sgDefault) total gs,
    chart := some { kind := "bar",
                    data := gs.map (fun g => (cellStr g.key, PVal.num g.revenue)) },
    table := some (gs.map (fun g =>
      (cellStr g.key,
        [PVal.num g.revenue, PVal.num g.profit, PVal.num g.units, g.margin]))) }

/-- `analyze_regional_performance` (promt.py lines 106-155): soft
failure when 'Region' or 'Revenue' is absent; `.agg` raises KeyError
when 'Profit' or 'Units_Sold' is absent; `regional_data.index[0]`
raises IndexError when there are no groups. -/
def analyze_regional_performance (df : DF) : Except PdError AnalysisResult :=
  if df.hasCol "Region" = false ∨ df.hasCol "Revenue" = false then
    .ok { text := regionalMissingMsg, chart := none, table := none }
  else if df.hasCol "Profit" = false then .error (.keyError "Profit")
  else if df.hasCol "Units_Sold" = false then .error (.keyError "Units_Sold")
  else if regionalGroups df = [] then .error .indexError
  else .ok (regionalOkResult df)

/-! ### Margin routine (promt.py lines 218-272) -/

/-- Soft-failure message of `analyze_profit_margins` (line 220). -/
def profitMissingMsg : String :=
  "Profit analysis requires 'Profit' and 'Revenue' columns in your data."

/-- Soft-failure message for the grouping column (line 225). -/
def profitGroupMissingMsg : String :=
  "Profit analysis requires a 'Product_Service_Name' or 'Category_Department' column in your data."

/-- `group_col = 'Product_Service_Name' if present else
'Category_Department'` (line 222). -/
def profitGroupCol (df : DF) : String :=
  if df.hasCol "Product_Service_Name" then "Product_Service_Name"
  else "Category_Department"

/-- `df.groupby(group_col).agg(...)` with the margin column. -/
def profitGroups (df : DF) : List SumGroup :=
  (groupKeys df (profitGroupCol df)).map (mkSumGroup df (profitGroupCol df))

/-- `profit_data.sort_values('Profit_Margin', ascending=False)`. -/
def profitGroupsSorted (df : DF) : List SumGroup :=
  sortByB (fun a b => pvDescBefore a.margin b.margin) (profitGroups df)

/-- The secondary table of the Margin routine. -/
def profitTableOf (gs : List SumGroup) : TableOut :=
  gs.map (fun g =>
    (cellStr g.key,
      [PVal.num g.revenue, PVal.num g.profit, PVal.num g.units, g.margin]))

/-- The Margin report text: headline plus the top-5 enumeration
(promt.py lines 252-266, `profit_data.index[:5]`). -/
def profitTextFor (top : SumGroup) (avg : PVal) (top5 : List SumGroup) : String :=
  "Profit Margin Analysis. Highest Margin: " ++ cellStr top.key
    ++ " (" ++ fmtP top.margin ++ " pct). Average Margin: " ++ fmtP avg
    ++ " pct. Top 5 Performers:"
    ++ String.join (top5.map (fun g =>
        " | " ++ cellStr g.key ++ ": " ++ fmtP g.margin ++ " pct margin ("
          ++ fmtQ g.revenue ++ " revenue)"))

/-- The successful Margin result: chart and table use
`profit_data.head(10)`, the text enumerates `index[:5]`. -/
def profitOkResult (df : DF) : AnalysisResult :=
  let sorted := profitGroupsSorted df
  let top10 := sorted.take 10
  { text := profitTextFor (sorted.headD sgDefault)
              (pvMean (sorted.map (fun g => g.margin))) (sorted.take 5),
    chart := some { kind := "bar",
                    data := top10.map (fun g => (cellStr g.key, g.margin)) },
    table := some (profitTableOf top10) }

/-- `analyze_profit_margins` (promt.py lines 218-272). -/
def analyze_profit_margins (df : DF) : Except PdError AnalysisResult :=
  if df.hasCol "Profit" = false ∨ df.hasCol "Revenue" = false then
    .ok { text := profitMissingMsg, chart := none, table := none }
  else if df.hasCol (profitGroupCol df) = false then
    .ok { text := profitGroupMissingMsg, chart := none, table := none }
  else if df.hasCol "Units_Sold" = false then .error (.keyError "Units_Sold")
  else if profitGroups df = [] then .error .indexError
  else .ok (profitOkResult df)

/-! ### Inventory routine (promt.py lines 400-450) -/

/-- Soft-failure message of `analyze_inventory` (line 402). -/
def invMissingMsg : String :=
  "Inventory analysis requires 'Inventory_Level' and 'Category_Department' columns in your data."

/-- Empty-result message of `analyze_inventory` (line 407), verbatim. -/
def invNoDataMsg : String := "No inventory data available for analysis."

/-- `df[df['Inventory_Level'].notna()]` (numeric columns hold numbers
or nulls after the upload coercion). -/
def invFiltered (df : DF) : List RowT :=
  df.rows.filter (fun r => (cellNum (getCell r "Inventory_Level")).isSome)

/-- The retained inventory values. -/
def invValues (df : DF) : List ℚ :=
  (invFiltered df).filterMap (fun r => cellNum (getCell r "Inventory_Level"))

/-- Ascending sort of rationals. -/
def sortQ (l : List ℚ) : List ℚ := sortByB (fun a b => decide (a < b)) l

/-- pandas `Series.quantile(0.25)` with the default linear
interpolation: for sorted values `x₀ … x_{n−1}` and position
`h = (n−1)/4`, the result is `x_{⌊h⌋} + (h−⌊h⌋)·(x_{⌊h⌋+1} − x_{⌊h⌋})`. -/
def quantile25 (l : List ℚ) : ℚ :=
  let s := sortQ l
  if s.length = 0 then 0
  else
    let h : ℚ := ((s.length : ℚ) - 1) / 4
    let i : ℕ := (⌊h⌋).toNat
    let x0 := s.getD i 0
    let x1 := s.getD (i + 1) x0
    x0 + (h - (⌊h⌋ : ℚ)) * (x1 - x0)

/-- `inventory_df['Inventory_Level'].quantile(0.25)` (line 426). -/
def lowStockThreshold (df : DF) : ℚ := quantile25 (invValues df)

/-- `len(inventory_df[inventory_df['Inventory_Level'] <=
low_stock_threshold])` (line 427). -/
def lowStockCount (df : DF) : ℕ :=
  ((invValues df).filter (fun v => decide (v ≤ lowStockThreshold df))).length

/-- One per-category inventory group: mean, sum and count of
`Inventory_Level`, each `.round(0)`-ed (count is integral already). -/
structure InvGroup where
  key : Cell
  avgInv : PVal
  total : ℚ
  count : ℕ
deriving DecidableEq

/-- The rows of one inventory category group. -/
def invGroupRows (df : DF) (k : Cell) : List RowT :=
  (invFiltered df).filter (fun r => decide (getCell r "Category_Department" = k))

/-- Build one inventory group. -/
def mkInvGroup (df : DF) (k : Cell) : InvGroup :=
  let rs := invGroupRows df k
  { key := k, avgInv := pvRound 0 (colMean rs "Inventory_Level"),
    total := roundTo 0 (colSum rs "Inventory_Level"), count := rs.length }

/-- Group keys of the filtered frame. -/
def invGroupKeys (df : DF) : List Cell :=
  dedupF (((invFiltered df).map (fun r => getCell r "Category_Department")).filter
    (fun x => decide (x ≠ Cell.null)))

/-- `inventory_df.groupby('Category_Department').agg(...)`. -/
def invGroups (df : DF) : List InvGroup :=
  (invGroupKeys df).map (mkInvGroup df)

/-- `sort_values('Total_Inventory', ascending=False)`. -/
def invGroupsSorted (df : DF) : List InvGroup :=
  sortByB (fun a b => decide (b.total < a.total)) (invGroups df)

/-- The Inventory report text (formatting abstracted; it carries the
filtered count, overall mean, low-stock count and threshold). -/
def invTextFor (n : ℕ) (avgAll : PVal) (lowCount : ℕ) (thr : ℚ)
    (gs : List InvGroup) : String :=
  "Inventory Analysis. Total Products with Inventory: " ++ toString n
    ++ ". Average Inventory Level: " ++ fmtP avgAll
    ++ ". Low Stock Risk: " ++ toString lowCount
    ++ " items are below the 25th percentile threshold of "
    ++ fmtQ thr ++ " units."
    ++ String.join (gs.map (fun g =>
        " | " ++ cellStr g.key ++ ": " ++ fmtQ g.total ++ " total units, "
          ++ fmtP g.avgInv ++ " avg per product (" ++ toString g.count
          ++ " products)"))

/-- The successful Inventory result. -/
def invOkResult (df : DF) : AnalysisResult :=
  let gs := invGroupsSorted df
  { text := invTextFor (invFiltered df).length
              (colMean (invFiltered df) "Inventory_Level")
              (lowStockCount df) (lowStockThreshold df) gs,
    chart := some { kind := "bar",
                    data := gs.map (fun g => (cellStr g.key, PVal.num g.total)) },
    table := some (gs.map (fun g =>
      (cellStr g.key, [g.avgInv, PVal.num g.total, PVal.num (g.count : ℚ)]))) }

/-- `analyze_inventory` (promt.py lines 400-450). -/
def analyze_inventory (df : DF) : Except PdError AnalysisResult :=
  if df.hasCol "Inventory_Level" = false ∨ df.hasCol "Category_Department" = false then
    .ok { text := invMissingMsg, chart := none, table := none }
  else if invFiltered df = [] then
    .ok { text := invNoDataMsg, chart := none, table := none }
  else .ok (invOkResult df)

/-! ### Monthly routine (promt.py lines 158-215) -/

/-- Soft-failure message of `analyze_monthly_trends` (line 160). -/
def monthlyMissingMsg : String :=
  "Monthly trend analysis requires 'Date' (datetime format) and 'Revenue' columns in your data."

/-- A cell a datetime column can hold (dates or NaT). -/
def dateCellOK : Cell → Bool
  | .date _ _ _ => true
  | .null => true
  | _ => false

/-- `to_period('M')` of a date cell. -/
def monthOfCell : Cell → Option (ℕ × ℕ)
  | .date y m _ => some (y, m)
  | _ => none

/-- Whether the `Date` column has datetime dtype (the `.dt` accessor
raises AttributeError otherwise). -/
def dateColOKb (df : DF) : Bool := (colCells df "Date").all dateCellOK

/-- The distinct months, ascending (a pandas `groupby` sorts its
period keys, which makes `index[-1]` the most recent month). -/
def monthKeys (df : DF) : List (ℕ × ℕ) :=
  sortByB (fun a b => decide (a.1 * 12 + a.2 < b.1 * 12 + b.2))
    (dedupF ((colCells df "Date").filterMap monthOfCell))

/-- The rows of one month. -/
def monthRows (df : DF) (k : ℕ × ℕ) : List RowT :=
  df.rows.filter (fun r => decide (monthOfCell (getCell r "Date") = some k))

/-- One monthly group: sums of Revenue/Units_Sold/Profit, `.round(2)`. -/
structure MonthGroup where
  ym : ℕ × ℕ
  revenue : ℚ
  units : ℚ
  profit : ℚ
deriving DecidableEq

/-- Build one monthly group. -/
def mkMonthGroup (df : DF) (k : ℕ × ℕ) : MonthGroup :=
  { ym := k, revenue := roundTo 2 (colSum (monthRows df k) "Revenue"),
    units := roundTo 2 (colSum (monthRows df k) "Units_Sold"),
    profit := roundTo 2 (colSum (monthRows df k) "Profit") }

/-- `df_temp.groupby('Month').agg(...)`. -/
def monthlyGroups (df : DF) : List MonthGroup :=
  (monthKeys df).map (mkMonthGroup df)

/-- Tail of `.pct_change() * 100` given the previous value. -/
def growthAux (prev : ℚ) : List ℚ → List PVal
  | [] => []
  | r :: rest => pvScale 100 (pdiv (r - prev) prev) :: growthAux r rest

/-- `Revenue_Growth = Revenue.pct_change() * 100`: NaN for the first
month, then consecutive relative differences. -/
def growthsOf : List ℚ → List PVal
  | [] => []
  | r :: rest => PVal.nan :: growthAux r rest

/-- Label of a month. -/
def monthStr (ym : ℕ × ℕ) : String := toString ym.1 ++ "-" ++ toString ym.2

/-- `idxmax`: the first entry attaining the maximum. -/
def idxmaxByQ (key : α → ℚ) (l : List α) : Option α :=
  l.foldl (fun best x =>
    match best with
    | none => some x
    | some b => if key b < key x then some x else best) none

/-- Placeholder month group. -/
def mgDefault : MonthGroup := { ym := (0, 0), revenue := 0, units := 0, profit := 0 }

/-- The Monthly report text (formatting abstracted). -/
def monthlyTextFor (latest : MonthGroup) (latestGrowth : PVal)
    (best : MonthGroup) (avgRev : PVal) : String :=
  "Monthly Revenue Trends Analysis. Latest Month (" ++ monthStr latest.ym
    ++ "): " ++ fmtQ latest.revenue ++ ". Month-over-Month Growth: "
    ++ fmtP latestGrowth ++ " pct. Best Performing Month: "
    ++ monthStr best.ym ++ " (" ++ fmtQ best.revenue
    ++ "). Average Monthly Revenue: " ++ fmtP avgRev

/-- The successful Monthly result. -/
def monthlyOkResult (df : DF) : AnalysisResult :=
  let gs := monthlyGroups df
  let growths := growthsOf (gs.map (fun g => g.revenue))
  { text := monthlyTextFor (gs.getLastD mgDefault) (growths.getLastD .nan)
      ((idxmaxByQ (fun g => g.revenue) gs).getD mgDefault)
      (pdiv (gs.map (fun g => g.revenue)).sum (gs.length : ℚ)),
    chart := some { kind := "line",
                    data := gs.map (fun g => (monthStr g.ym, PVal.num g.revenue)) },
    table := some ((gs.zip growths).map (fun p =>
      (monthStr p.1.ym,
        [PVal.num p.1.revenue, PVal.num p.1.units, PVal.num p.1.profit, p.2]))) }

/-- `analyze_monthly_trends` (promt.py lines 157-215). -/
def analyze_monthly_trends (df : DF) : Except PdError AnalysisResult :=
  if df.hasCol "Date" = false ∨ df.hasCol "Revenue" = false then
    .ok { text := monthlyMissingMsg, chart := none, table := none }
  else if dateColOKb df = false then .error .attrError
  else if df.hasCol "Units_Sold" = false then .error (.keyError "Units_Sold")
  else if df.hasCol "Profit" = false then .error (.keyError "Profit")
  else if monthlyGroups df = [] then .error .indexError
  else .ok (monthlyOkResult df)

/-! ### Campaign routine (promt.py lines 275-320) -/

/-- Soft-failure message of `analyze_campaign_performance` (line 277). -/
def campaignMissingMsg : String :=
  "Campaign analysis requires 'Campaign_Name' and 'Revenue' columns in your data."

/-- One campaign group: sums plus
`Avg_Order_Value = (Revenue / group size).round(2).fillna(0)`. -/
structure CampGroup where
  key : Cell
  revenue : ℚ
  units : ℚ
  profit : ℚ
  aov : PVal
deriving DecidableEq

/-- Build one campaign group. -/
def mkCampGroup (df : DF) (k : Cell) : CampGroup :=
  let rs := groupRows df "Campaign_Name" k
  let rev := roundTo 2 (colSum rs "Revenue")
  { key := k, revenue := rev, units := roundTo 2 (colSum rs "Units_Sold"),
    profit := roundTo 2 (colSum rs "Profit"),
    aov := pvFillna0 (pvRound 2 (pdiv rev (rs.length : ℚ))) }

/-- `df.groupby('Campaign_Name').agg(...)`. -/
def campaignGroups (df : DF) : List CampGroup :=
  (groupKeys df "Campaign_Name").map (mkCampGroup df)

/-- `sort_values('Revenue', ascending=False)`. -/
def campaignGroupsSorted (df : DF) : List CampGroup :=
  sortByB (fun a b => decide (b.revenue < a.revenue)) (campaignGroups df)

/-- Placeholder campaign group. -/
def cgDefault : CampGroup :=
  { key := .null, revenue := 0, units := 0, profit := 0, aov := .nan }

/-- The Campaign report text (formatting abstracted). -/
def campaignTextFor (best : CampGroup) (total : ℚ) (n : ℕ)
    (gs : List CampGroup) : String :=
  "Campaign Performance Analysis. Top Campaign: " ++ cellStr best.key
    ++ " (" ++ fmtQ best.revenue ++ " - "
    ++ fmtP (pvRound 1 (pvScale 100 (pdiv best.revenue total)))
    ++ " pct of total revenue). Total Campaigns: " ++ toString n
    ++ ". Total Campaign Revenue: " ++ fmtQ total
    ++ String.join (gs.map (fun g =>
        " | " ++ cellStr g.key ++ ": " ++ fmtQ g.revenue ++ " revenue, "
          ++ fmtP g.aov ++ " avg order value"))

/-- The successful Campaign result. -/
def campaignOkResult (df : DF) : AnalysisResult :=
  let gs := campaignGroupsSorted df
  let total := (gs.map (fun g => g.revenue)).sum
  { text := campaignTextFor (gs.headD cgDefault) total gs.length gs,
    chart := some { kind := "pie",
                    data := gs.map (fun g => (cellStr g.key, PVal.num g.revenue)) },
    table := some (gs.map (fun g =>
      (cellStr g.key,
        [PVal.num g.revenue, PVal.num g.units, PVal.num g.profit, g.aov]))) }

/-- `analyze_campaign_performance` (promt.py lines 274-320). -/
def analyze_campaign_performance (df : DF) : Except PdError AnalysisResult :=
  if df.hasCol "Campaign_Name" = false ∨ df.hasCol "Revenue" = false then
    .ok { text := campaignMissingMsg, chart := none, table := none }
  else if df.hasCol "Units_Sold" = false then .error (.keyError "Units_Sold")
  else if df.hasCol "Profit" = false then .error (.keyError "Profit")
  else if campaignGroups df = [] then .error .indexError
  else .ok (campaignOkResult df)

/-! ### Satisfaction routine (promt.py lines 322-397) -/

/-- Soft-failure message of `analyze_customer_satisfaction` (line 325). -/
def satMissingMsg : String :=
  "Customer satisfaction analysis requires a 'Customer_Satisfaction_Score' column (0-5 scale) in your data."

/-- The non-null satisfaction scores. -/
def cssValues (df : DF) : List ℚ :=
  df.rows.filterMap (fun r => cellNum (getCell r "Customer_Satisfaction_Score"))

/-- `df['Customer_Satisfaction_Score'].mean()`. -/
def satAvg (df : DF) : PVal :=
  pdiv (cssValues df).sum ((cssValues df).length : ℚ)

/-- One per-region satisfaction group: `mean().round(2)`. -/
structure SatGroup where
  key : Cell
  score : PVal
deriving DecidableEq

/-- Build one per-region satisfaction group. -/
def mkSatGroup (df : DF) (k : Cell) : SatGroup :=
  { key := k,
    score := pvRound 2 (colMean (groupRows df "Region" k) "Customer_Satisfaction_Score") }

/-- `df.groupby('Region')['Customer_Satisfaction_Score'].mean()`. -/
def satGroups (df : DF) : List SatGroup :=
  (groupKeys df "Region").map (mkSatGroup df)

/-- `sort_values(ascending=False)`. -/
def satGroupsSorted (df : DF) : List SatGroup :=
  sortByB (fun a b => pvDescBefore a.score b.score) (satGroups df)

/-- The traffic-light tag: green when the score is at least 4, yellow
when at least 3, red otherwise (line 357). -/
def satTag (s : PVal) : String :=
  if pvGE s 4 then "green" else if pvGE s 3 then "yellow" else "red"

/-- The per-region Satisfaction report text. -/
def satRegionText (avg : PVal) (n : ℕ) (gs : List SatGroup) : String :=
  "Customer Satisfaction Analysis. Average Satisfaction: " ++ fmtP avg
    ++ " of 5. Total Responses: " ++ toString n
    ++ String.join (gs.map (fun g =>
        " | " ++ satTag g.score ++ " " ++ cellStr g.key ++ ": "
          ++ fmtP g.score ++ " of 5"))

/-- `value_counts().sort_index()`: the distinct scores ascending with
their multiplicities. -/
def cssCounts (df : DF) : List (ℚ × ℕ) :=
  (sortByB (fun a b => decide (a < b)) (dedupF (cssValues df))).map
    (fun v => (v, ((cssValues df).filter (fun x => decide (x = v))).length))

/-- The histogram Satisfaction report text. -/
def satHistText (avg : PVal) (n : ℕ) (counts : List (ℚ × ℕ)) : String :=
  "Customer Satisfaction Analysis. Average Satisfaction: " ++ fmtP avg
    ++ " of 5. Total Responses: " ++ toString n
    ++ String.join (counts.map (fun p =>
        " | " ++ fmtQ p.1 ++ " stars: " ++ toString p.2 ++ " responses ("
          ++ fmtP (pvRound 1 (pvScale 100 (pdiv (p.2 : ℚ) (n : ℚ)))) ++ " pct)"))

/-- `analyze_customer_satisfaction` (promt.py lines 322-397): with a
Region column, per-region averages (with a secondary table); without
one, the score histogram (text and chart only). -/
def analyze_customer_satisfaction (df : DF) : Except PdError AnalysisResult :=
  if df.hasCol "Customer_Satisfaction_Score" = false then
    .ok { text := satMissingMsg, chart := none, table := none }
  else if df.hasCol "Region" = true then
    .ok { text := satRegionText (satAvg df) df.rows.length (satGroupsSorted df),
          chart := some { kind := "bar",
                          data := (satGroupsSorted df).map (fun g => (cellStr g.key, g.score)) },
          table := some ((satGroupsSorted df).map (fun g => (cellStr g.key, [g.score]))) }
  else
    .ok { text := satHistText (satAvg df) df.rows.length (cssCounts df),
          chart := some { kind := "bar",
                          data := (cssCounts df).map (fun p => (fmtQ p.1, PVal.num (p.2 : ℚ))) },
          table := none }

/-! ### Category routine (promt.py lines 452-505) -/

/-- Soft-failure message of `analyze_category_performance` (line 455). -/
def categoryMissingMsg : String :=
  "Category analysis requires 'Category_Department', 'Revenue', and 'Profit' columns in your data."

/-- One category group: sums, the margin column, and
`Avg_Unit_Price = (Revenue / Units_Sold).round(2).fillna(0)`. -/
structure CatGroup where
  key : Cell
  revenue : ℚ
  profit : ℚ
  units : ℚ
  margin : PVal
  avgUnitPrice : PVal
deriving DecidableEq

/-- Build one category group. -/
def mkCatGroup (df : DF) (k : Cell) : CatGroup :=
  let rs := groupRows df "Category_Department" k
  let rev := roundTo 2 (colSum rs "Revenue")
  let prof := roundTo 2 (colSum rs "Profit")
  let un := roundTo 2 (colSum rs "Units_Sold")
  { key := k, revenue := rev, profit := prof, units := un,
    margin := marginOf prof rev,
    avgUnitPrice := pvFillna0 (pvRound 2 (pdiv rev un)) }

/-- `df.groupby('Category_Department').agg(...)` with derived columns. -/
def categoryGroups (df : DF) : List CatGroup :=
  (groupKeys df "Category_Department").map (mkCatGroup df)

/-- `sort_values('Revenue', ascending=False)`. -/
def categoryGroupsSorted (df : DF) : List CatGroup :=
  sortByB (fun a b => decide (b.revenue < a.revenue)) (categoryGroups df)

/-- `idxmax` over pandas values: NaN entries are skipped, the first
maximum is kept. -/
def idxmaxByPv (key : α → PVal) (l : List α) : Option α :=
  l.foldl (fun best x =>
    if key x = PVal.nan then best
    else
      match best with
      | none => some x
      | some b => if pvDescBefore (key x) (key b) then some x else best) none

/-- Placeholder category group. -/
def catDefault : CatGroup :=
  { key := .null, revenue := 0, profit := 0, units := 0,
    margin := .nan, avgUnitPrice := .nan }

/-- The Category report text (formatting abstracted). -/
def categoryTextFor (topRev topMargin : CatGroup) (gs : List CatGroup) : String :=
  "Category Performance Analysis. Highest Revenue: " ++ cellStr topRev.key
    ++ " (" ++ fmtQ topRev.revenue ++ "). Highest Margin: "
    ++ cellStr topMargin.key ++ " (" ++ fmtP topMargin.margin
    ++ " pct). Total Categories: " ++ toString gs.length
    ++ String.join (gs.map (fun g =>
        " | " ++ cellStr g.key ++ ": " ++ fmtQ g.revenue ++ " revenue, "
          ++ fmtP g.margin ++ " pct margin, " ++ fmtQ g.units ++ " units sold"))

/-- The successful Category result. -/
def categoryOkResult (df : DF) : AnalysisResult :=
  let gs := categoryGroupsSorted df
  { text := categoryTextFor (gs.headD catDefault)
      ((idxmaxByPv (fun g => g.margin) gs).getD catDefault) gs,
    chart := some { kind := "scatter",
                    data := gs.map (fun g => (cellStr g.key, g.margin)) },
    table := some (gs.map (fun g =>
      (cellStr g.key,
        [PVal.num g.revenue, PVal.num g.profit, PVal.num g.units,
         g.margin, g.avgUnitPrice]))) }

/-- `analyze_category_performance` (promt.py lines 452-505). -/
def analyze_category_performance (df : DF) : Except PdError AnalysisResult :=
  if df.hasCol "Category_Department" = false ∨ df.hasCol "Revenue" = false
      ∨ df.hasCol "Profit" = false then
    .ok { text := categoryMissingMsg, chart := none, table := none }
  else if df.hasCol "Units_Sold" = false then .error (.keyError "Units_Sold")
  else if categoryGroups df = [] then .error .indexError
  else .ok (categoryOkResult df)

/-! ### Summary routine (promt.py lines 507-543) -/

/-- `total_revenue` with its column guard (line 509). -/
def totalRevenueOf (df : DF) : ℚ :=
  if df.hasCol "Revenue" = true then colSum df.rows "Revenue" else 0

/-- `total_profit` with its column guard (line 510). -/
def totalProfitOf (df : DF) : ℚ :=
  if df.hasCol "Profit" = true then colSum df.rows "Profit" else 0

/-- `total_units` with its column guard (line 511). -/
def totalUnitsOf (df : DF) : ℚ :=
  if df.hasCol "Units_Sold" = true then colSum df.rows "Units_Sold" else 0

/-- `overall_margin = (total_profit / total_revenue * 100) if
total_revenue > 0 else 0` (line 513). -/
def summaryOverallMargin (df : DF) : ℚ :=
  if 0 < totalRevenueOf df then totalProfitOf df / totalRevenueOf df * 100 else 0

/-- The dated rows of the `Date` column. -/
def dateVals (df : DF) : List (ℕ × ℕ × ℕ) :=
  df.rows.filterMap (fun r =>
    match getCell r "Date" with
    | .date y m d => some (y, m, d)
    | _ => none)

/-- Numeric key of a date for comparisons. -/
def dateKeyN (x : ℕ × ℕ × ℕ) : ℕ := x.1 * 10000 + x.2.1 * 100 + x.2.2

/-- `YYYY-MM-DD` label of a date (formatting abstracted). -/
def dateStr (x : ℕ × ℕ × ℕ) : String :=
  toString x.1 ++ "-" ++ toString x.2.1 ++ "-" ++ toString x.2.2

/-- First minimum by a numeric key. -/
def minByN (key : α → ℕ) (dflt : α) : List α → α
  | [] => dflt
  | a :: as => as.foldl (fun b x => if key x < key b then x else b) a

/-- First maximum by a numeric key. -/
def maxByN (key : α → ℕ) (dflt : α) : List α → α
  | [] => dflt
  | a :: as => as.foldl (fun b x => if key b < key x then x else b) a

/-- The date-range fragment: `.min().strftime(...)` raises
AttributeError on a non-datetime column and ValueError
(`NaTType does not support strftime`) when every date is null. -/
def summaryDateRange (df : DF) : Except PdError String :=
  if dateColOKb df = false then .error .attrError
  else
    match dateVals df with
    | [] => .error .valueError
    | v :: vs =>
      .ok (dateStr (minByN dateKeyN v (v :: vs)) ++ " to "
            ++ dateStr (maxByN dateKeyN v (v :: vs)))

/-- `df.groupby(c)['Revenue'].sum().idxmax()`: ValueError on an empty
group index. -/
def topKeyByRevenue (df : DF) (c : String) : Except PdError String :=
  match idxmaxByQ (fun k => colSum (groupRows df c k) "Revenue") (groupKeys df c) with
  | some k => .ok (cellStr k)
  | none => .error .valueError

/-- The Summary report text (formatting abstracted). -/
def summaryTextFor (df : DF) (dr tr tc : String) : String :=
  "Business Performance Summary. Total Revenue: " ++ fmtQ (totalRevenueOf df)
    ++ ". Total Profit: " ++ fmtQ (totalProfitOf df)
    ++ ". Overall Profit Margin: " ++ fmtQ (summaryOverallMargin df)
    ++ " pct. Total Units Sold: " ++ fmtQ (totalUnitsOf df)
    ++ ". Total Records: " ++ toString df.rows.length
    ++ ". Date Range: " ++ dr
    ++ ". Best Revenue-Generating Region: " ++ tr
    ++ ". Best Revenue-Generating Category: " ++ tc

/-- `generate_summary` (promt.py lines 507-543): no chart, no table. -/
def generate_summary (df : DF) : Except PdError AnalysisResult := do
  let dr ← if df.hasCol "Date" = true ∧ df.rows ≠ [] then summaryDateRange df
           else pure "Date information not available"
  let tr ← if df.hasCol "Region" = true ∧ df.hasCol "Revenue" = true then
             topKeyByRevenue df "Region"
           else pure "N/A"
  let tc ← if df.hasCol "Category_Department" = true ∧ df.hasCol "Revenue" = true then
             topKeyByRevenue df "Category_Department"
           else pure "N/A"
  pure { text := summaryTextFor df dr tr tc, chart := none, table := none }

/-! ### Question classifier (promt.py lines 74-103) -/

/-- Regional keyword set (line 78). -/
def regionalKeywords : List String := ["region", "regional", "geography", "location"]

/-- Monthly keyword set (line 81). -/
def monthlyKeywords : List String := ["monthly", "trend", "time", "month", "over time"]

/-- Margin keyword set (line 84). -/
def profitKeywords : List String := ["profit", "margin", "profitability", "cost"]

/-- Campaign keyword set (line 87). -/
def campaignKeywords : List String := ["campaign", "marketing", "promotion", "channel"]

/-- Satisfaction keyword set (line 90). -/
def satisfactionKeywords : List String := ["satisfaction", "customer", "rating", "score"]

/-- Inventory keyword set (line 93). -/
def inventoryKeywords : List String := ["inventory", "stock", "warehouse", "levels"]

/-- Category keyword set (line 96). -/
def categoryKeywords : List String := ["category", "product", "department", "service"]

/-- Summary keyword set (line 99). -/
def summaryKeywords : List String := ["summary", "overview", "general", "what is the data showing"]

/-- `any(word in question_lower for word in kws)`. -/
def matchesAny (kws : List String) (ql : List Char) : Bool :=
  kws.any (fun w => pyIn w ql)

/-- The fixed help message (promt.py line 103), kept verbatim. -/
def helpMsg : String :=
  "I can help you analyze various aspects of your business data. Try asking about **regional performance**, **monthly trends**, **profit margins**, **campaign effectiveness**, **customer satisfaction**, or **inventory levels**."

/-- The no-match result. -/
def helpResult : AnalysisResult := { text := helpMsg, chart := none, table := none }

/-- `analyze_question` (promt.py lines 74-103): lower-case the
question, then the if/elif keyword cascade; dispatch catches nothing,
so a routine's error is the caller's error. -/
def analyze_question (question : String) (df : DF) : Except PdError AnalysisResult :=
  let ql := lowerChars question.toList
  if matchesAny regionalKeywords ql then analyze_regional_performance df
  else if matchesAny monthlyKeywords ql then analyze_monthly_trends df
  else if matchesAny profitKeywords ql then analyze_profit_margins df
  else if matchesAny campaignKeywords ql then analyze_campaign_performance df
  else if matchesAny satisfactionKeywords ql then analyze_customer_satisfaction df
  else if matchesAny inventoryKeywords ql then analyze_inventory df
  else if matchesAny categoryKeywords ql then analyze_category_performance df
  else if matchesAny summaryKeywords ql then generate_summary df
  else .ok helpResult

/-- The eight intents plus the no-match fallback. -/
inductive Intent where
  | regional
  | monthly
  | margin
  | campaign
  | satisfaction
  | inventory
  | category
  | summary
  | fallback
deriving DecidableEq

/-- The routine of each intent. -/
def runIntent : Intent → DF → Except PdError AnalysisResult
  | .regional => analyze_regional_performance
  | .monthly => analyze_monthly_trends
  | .margin => analyze_profit_margins
  | .campaign => analyze_campaign_performance
  | .satisfaction => analyze_customer_satisfaction
  | .inventory => analyze_inventory
  | .category => analyze_category_performance
  | .summary => generate_summary
  | .fallback => fun _ => .ok helpResult

/-- Modelled from the spec: the fixed priority order of the eight
intents with their keyword sets. -/
def intentPriorityTable : List (List String × Intent) :=
  [(regionalKeywords, .regional), (monthlyKeywords, .monthly),
   (profitKeywords, .margin), (campaignKeywords, .campaign),
   (satisfactionKeywords, .satisfaction), (inventoryKeywords, .inventory),
   (categoryKeywords, .category), (summaryKeywords, .summary)]

/-- Modelled from the spec: the first intent in the table whose
keyword set has a member contained in the question wins. -/
def firstIntentIn : List (List String × Intent) → List Char → Intent
  | [], _ => .fallback
  | (kws, i) :: rest, ql => if matchesAny kws ql then i else firstIntentIn rest ql

/-- The spec-side classifier. -/
def specFirstIntent (ql : List Char) : Intent := firstIntentIn intentPriorityTable ql

/-- Whether any intent's keyword set matches. -/
def anyIntentMatch (ql : List Char) : Bool :=
  matchesAny regionalKeywords ql || matchesAny monthlyKeywords ql ||
  matchesAny profitKeywords ql || matchesAny campaignKeywords ql ||
  matchesAny satisfactionKeywords ql || matchesAny inventoryKeywords ql ||
  matchesAny categoryKeywords ql || matchesAny summaryKeywords ql

/-! ### Chat transcript (promt.py lines 62-63, 642-661) -/

/-- One transcript message; a deleted dict key is a `none` field. -/
structure ChatMsg where
  role : String
  content : String
  chart : Option ChartSpec
  dataframe : Option TableOut
deriving DecidableEq

/-- A user turn. -/
def userMsg (q : String) : ChatMsg :=
  { role := "user", content := q, chart := none, dataframe := none }

/-- An assistant turn carrying the result's payloads (line 656). -/
def assistantMsg (r : AnalysisResult) : ChatMsg :=
  { role := "assistant", content := r.text, chart := r.chart, dataframe := r.table }

/-- `del messages[i]['chart']` and `del messages[i]['dataframe']`. -/
def stripPayload (m : ChatMsg) : ChatMsg :=
  { m with chart := none, dataframe := none }

/-- Delete the payloads of the message at index `i`. -/
def stripAt (ms : List ChatMsg) (i : ℕ) : List ChatMsg :=
  ms.enum.map (fun p => if p.1 = i then stripPayload p.2 else p.2)

/-- One chat turn (promt.py lines 645-661): the question is appended
as a user message, the response as an assistant message, and then the
chart/dataframe keys are deleted from `messages[-2]` — which, after
the append, is the user message that triggered the turn.  When the
routine raises, the script run dies with the user message appended. -/
def chatStep (df : DF) (ms : List ChatMsg) (q : String) : List ChatMsg :=
  let ms1 := ms ++ [userMsg q]
  match analyze_question q df with
  | .ok r =>
    let ms2 := ms1 ++ [assistantMsg r]
    stripAt ms2 (ms2.length - 2)
  | .error _ => ms1

/-- A conversation: the questions processed in order from the empty
transcript. -/
def chatRun (df : DF) (qs : List String) : List ChatMsg :=
  qs.foldl (chatStep df) []

/-- How many transcript messages still hold a live chart. -/
def liveCharts (ms : List ChatMsg) : ℕ :=
  (ms.filter (fun m => m.chart.isSome)).length

/-! ### Concrete tables for witnesses and counterexamples -/

/-- The empty table. -/
def dfEmpty : DF := { cols := [], rows := [] }

/-- Region and Revenue present, Profit and Units_Sold absent. -/
def dfNoProfit : DF :=
  { cols := ["Region", "Revenue"],
    rows := [[("Region", Cell.str "North"), ("Revenue", Cell.num 100)]] }

/-- One region group with zero revenue and non-zero profit. -/
def dfZeroRev : DF :=
  { cols := ["Region", "Revenue", "Profit", "Units_Sold"],
    rows := [[("Region", Cell.str "A"), ("Revenue", Cell.num 0),
              ("Profit", Cell.num 5), ("Units_Sold", Cell.num 1)]] }

/-- Full regional schema, two regions. -/
def dfChat : DF :=
  { cols := ["Region", "Revenue", "Profit", "Units_Sold"],
    rows := [[("Region", Cell.str "North"), ("Revenue", Cell.num 100),
              ("Profit", Cell.num 40), ("Units_Sold", Cell.num 3)],
             [("Region", Cell.str "South"), ("Revenue", Cell.num 50),
              ("Profit", Cell.num 20), ("Units_Sold", Cell.num 2)]] }

/-- The inventory example [100, 200, 300, 400] of the spec. -/
def dfInv : DF :=
  { cols := ["Inventory_Level", "Category_Department"],
    rows := [[("Inventory_Level", Cell.num 100), ("Category_Department", Cell.str "Electronics")],
             [("Inventory_Level", Cell.num 200), ("Category_Department", Cell.str "Electronics")],
             [("Inventory_Level", Cell.num 300), ("Category_Department", Cell.str "Apparel")],
             [("Inventory_Level", Cell.num 400), ("Category_Department", Cell.str "Apparel")]] }

/-- One product row for `dfEleven`. -/
def elevenRow (nm : String) (pr : ℚ) : RowT :=
  [("Product_Service_Name", Cell.str nm), ("Revenue", Cell.num 100),
   ("Profit", Cell.num pr), ("Units_Sold", Cell.num 1)]

/-- Eleven products with pairwise distinct margins. -/
def dfEleven : DF :=
  { cols := ["Product_Service_Name", "Revenue", "Profit", "Units_Sold"],
    rows := [elevenRow "PA" 1, elevenRow "PB" 2, elevenRow "PC" 3,
             elevenRow "PD" 4, elevenRow "PE" 5, elevenRow "PF" 6,
             elevenRow "PG" 7, elevenRow "PH" 8, elevenRow "PI" 9,
             elevenRow "PJ" 10, elevenRow "PK" 11] }

/-! ### Theorems about the generator -/

theorem priceLo_pos (cat : String) : 0 < priceLo cat := by
  unfold priceLo
  split_ifs <;> norm_num

theorem rawRevenue_pos (p : GenParams) (h10 : 10 ≤ p.units)
    (hlo : priceLo p.category ≤ p.basePrice) : 0 < rawRevenue p := by
  have hu : (0 : ℚ) < (p.units : ℚ) := by
    have : 0 < p.units := lt_of_lt_of_le (by norm_num) h10
    exact_mod_cast this
  have hbp : 0 < p.basePrice := lt_of_lt_of_le (priceLo_pos _) hlo
  have h0 : 0 < (p.units : ℚ) * p.basePrice := mul_pos hu hbp
  unfold rawRevenue biasSummer biasHoliday biasSA biasNE
  split_ifs <;> nlinarith [h0]

/-- C6: for every sampler-valid draw, the raw revenue is positive, the
cost lies between half and three quarters of the revenue, profit is
revenue minus cost, and the stored margin is
`round(100·(revenue−cost)/revenue, 2)`; the stored profit is the
2-decimal rounding of the exact difference. -/
theorem c6_cost_profit_margin (p : GenParams) (h : SamplerOK p) :
    0 < rawRevenue p ∧
    1/2 * rawRevenue p ≤ rawCost p ∧
    rawCost p ≤ 3/4 * rawRevenue p ∧
    rawProfit p = rawRevenue p - rawCost p ∧
    (genRecord p).profit = roundTo 2 (rawRevenue p - rawCost p) ∧
    (genRecord p).profitMarginPct
      = roundTo 2 (100 * (rawRevenue p - rawCost p) / rawRevenue p) := by
  obtain ⟨-, -, -, hu1, -, hp1, -, hf1, hf2, -, -, -, -⟩ := h
  have hrev : 0 < rawRevenue p := rawRevenue_pos p hu1 hp1
  refine ⟨hrev, ?_, ?_, rfl, rfl, ?_⟩
  · have := mul_le_mul_of_nonneg_left hf1 hrev.le
    unfold rawCost
    nlinarith [this]
  · have := mul_le_mul_of_nonneg_left hf2.le hrev.le
    unfold rawCost
    nlinarith [this]
  · show roundTo 2 (rawProfit p / rawRevenue p * 100) = _
    unfold rawProfit
    congr 1
    ring

/-- C6 witness: the theorem applied at a concrete sampler-valid draw. -/
theorem c6_witness : 0 < rawRevenue genpPlain :=
  (c6_cost_profit_margin genpPlain (by with_unfolding_all decide)).1

/-- C7 (amended): inventory is non-null exactly for the physical
categories; Services and Software records have return rate exactly 0;
for physical categories the stored rate is the 3-decimal rounding of a
draw from the half-open interval `[0.01, 0.1)`. -/
theorem c7_inventory_return (p : GenParams) (h : SamplerOK p) :
    ((genRecord p).inventoryLevel ≠ none ↔ physicalCat p) ∧
    ((p.category = "Services" ∨ p.category = "Software") →
      (genRecord p).returnRate = 0) ∧
    (physicalCat p →
      (genRecord p).returnRate = roundTo 3 p.returnRate ∧
      1/100 ≤ p.returnRate ∧ p.returnRate < 1/10) := by
  obtain ⟨-, -, -, -, -, -, -, -, -, -, -, ht1, ht2⟩ := h
  refine ⟨?_, ?_, ?_⟩
  · by_cases hphys : physicalCat p <;> simp [genRecord, hphys]
  · intro hs
    have hne : ¬ physicalCat p := by
      unfold physicalCat
      rcases hs with h1 | h1 <;> rw [h1] <;> decide
    have h0 : roundTo 3 (0 : ℚ) = 0 := by norm_num [roundTo, rne]
    simp [genRecord, hne, h0]
  · intro hphys
    refine ⟨?_, ht1, ht2⟩
    show roundTo 3 (if physicalCat p then p.returnRate else 0) = _
    rw [if_pos hphys]

/-- C7 witness: the theorem applied at a concrete Services draw. -/
theorem c7_witness : (genRecord genpPlain).returnRate = 0 :=
  (c7_inventory_return genpPlain (by with_unfolding_all decide)).2.1 (Or.inr rfl)

/-- C7 counterexample: `np.random.uniform(0.01, 0.1)` includes its left
endpoint, so a sampler-valid Electronics record can carry return rate
exactly `0.01`, which is not in the open interval `(0.01, 0.1)` the
claim states. -/
theorem c7_counterexample :
    SamplerOK genpEdge ∧ genpEdge.category = "Electronics" ∧
    (genRecord genpEdge).returnRate = 1/100 ∧
    ¬ (1/100 < (genRecord genpEdge).returnRate) := by
  refine ⟨by with_unfolding_all decide, rfl, ?_, ?_⟩
  · with_unfolding_all decide
  · with_unfolding_all decide

/-- C8: the revenue of a generated record is units×base-price times the
product of the four bias factors, each contributing exactly when its
condition holds; the base price lies in the category's closed range;
the stored field is the 2-decimal rounding of that product. -/
theorem c8_revenue_bias (p : GenParams) (h : SamplerOK p) :
    rawRevenue p =
      (p.units : ℚ) * p.basePrice
        * (if p.region = "North" ∧ p.category = "Electronics" then 23/20 else 1)
        * (if p.region = "South" ∧ p.category = "Apparel" then 6/5 else 1)
        * (if pyIn "Holiday" p.campaign.toList then 5/4 else 1)
        * (if pyIn "Summer" p.campaign.toList then 11/10 else 1) ∧
    priceLo p.category ≤ p.basePrice ∧ p.basePrice ≤ priceHi p.category ∧
    (genRecord p).revenue = roundTo 2 (rawRevenue p) := by
  obtain ⟨-, -, -, -, -, hp1, hp2, -, -, -, -, -, -⟩ := h
  refine ⟨?_, hp1, hp2.le, rfl⟩
  unfold rawRevenue biasSummer biasHoliday biasSA biasNE
  split_ifs <;> ring

/-- C8 witness: the theorem applied at a concrete draw that triggers
the North-Electronics and Holiday factors. -/
theorem c8_witness : priceLo genpBias.category ≤ genpBias.basePrice :=
  (c8_revenue_bias genpBias (by with_unfolding_all decide)).2.1

/-! ### Sorting helper lemmas -/

theorem sortByB_cons (bef : α → α → Bool) (b : α) (bs : List α) :
    sortByB bef (b :: bs) = insSorted bef b (sortByB bef bs) := rfl

theorem mem_insSorted {bef : α → α → Bool} {a x : α} {l : List α} :
    x ∈ insSorted bef a l ↔ x = a ∨ x ∈ l := by
  induction l with
  | nil => simp [insSorted]
  | cons b bs ih =>
    simp only [insSorted]
    split_ifs
    · simp only [List.mem_cons, ih]
      tauto
    · simp only [List.mem_cons]

theorem mem_sortByB {bef : α → α → Bool} {x : α} {l : List α} :
    x ∈ sortByB bef l ↔ x ∈ l := by
  induction l with
  | nil => simp [sortByB]
  | cons b bs ih =>
    rw [sortByB_cons, mem_insSorted, ih]
    simp

/-! ### Theorems about the classifier and the routines -/

/-- C1: `analyze_question` is the first-match classifier over the
eight intents in the fixed priority order Regional, Monthly, Margin,
Campaign, Satisfaction, Inventory, Category, Summary, applied to the
lower-cased question; in particular a question containing "region"
(such as one containing both "region" and "profit") is dispatched to
the Regional routine. -/
theorem c1_priority_order (q : String) (df : DF) :
    analyze_question q df = runIntent (specFirstIntent (lowerChars q.toList)) df ∧
    (pyIn "region" (lowerChars q.toList) = true →
      analyze_question q df = analyze_regional_performance df) := by
  constructor
  · simp only [analyze_question, specFirstIntent, intentPriorityTable, firstIntentIn]
    split_ifs <;> rfl
  · intro h
    have hm : matchesAny regionalKeywords (lowerChars q.toList) = true := by
      simp only [matchesAny, regionalKeywords, List.any_cons, Bool.or_eq_true]
      exact Or.inl h
    simp only [analyze_question]
    rw [hm]
    simp

/-- C1 witness: "regional profit breakdown" contains "region", so it
routes to the Regional routine. -/
theorem c1_witness :
    analyze_question "regional profit breakdown" dfEmpty
      = analyze_regional_performance dfEmpty :=
  (c1_priority_order "regional profit breakdown" dfEmpty).2 (by decide)

/-- C2 counterexample: on a table having the checked columns 'Region'
and 'Revenue' but lacking 'Profit', the Regional routine's `.agg`
raises a KeyError that `analyze_question` does not catch, so an
exception does propagate to the caller. -/
theorem c2_counterexample :
    analyze_question "show region data" dfNoProfit
      = .error (PdError.keyError "Profit") := rfl

/-- C2 (amended): when no keyword of any intent matches, the
classifier returns the fixed help message without touching the table;
but not every routine failure is recoverable — failures beyond the
declared column checks (for example a missing 'Profit' column in the
Regional routine) propagate as exceptions. -/
theorem c2_help_on_no_match (q : String) (df : DF)
    (h : anyIntentMatch (lowerChars q.toList) = false) :
    analyze_question q df = .ok helpResult := by
  simp only [anyIntentMatch, Bool.or_eq_false_iff] at h
  obtain ⟨⟨⟨⟨⟨⟨⟨h1, h2⟩, h3⟩, h4⟩, h5⟩, h6⟩, h7⟩, h8⟩ := h
  simp only [analyze_question, h1, h2, h3, h4, h5, h6, h7, h8,
    Bool.false_eq_true, if_false]

/-- C2 witness: a question with no keywords gets the help message. -/
theorem c2_witness : analyze_question "hello" dfEmpty = .ok helpResult :=
  c2_help_on_no_match "hello" dfEmpty (by decide)

/-- C3 counterexample: a Regional group with summed revenue 0 and
summed profit 5 gets margin `5/0·100 = ∞`: `.fillna(0)` replaces only
NaN, so the ratio is infinity rather than the claimed 0. -/
theorem c3_counterexample :
    (regionalGroupsSorted dfZeroRev).map (fun g => (g.revenue, g.margin))
      = [((0 : ℚ), PVal.inf)] ∧ PVal.inf ≠ PVal.num 0 := by
  constructor
  · with_unfolding_all decide
  · decide

/-- C3 (amended): in the Regional, Margin and Category routines every
reported group margin is `(profit/revenue·100).round(2).fillna(0)`,
which is 0 whenever the summed revenue and the summed profit are both
zero (the 0/0 NaN is filled); and the Summary overall margin is 0
whenever the total revenue is zero.  (With zero revenue but non-zero
profit the group ratio is ±∞, not 0 — see the counterexample.) -/
theorem c3_margin_guard (df : DF) :
    (∀ g ∈ regionalGroupsSorted df, g.margin = marginOf g.profit g.revenue) ∧
    (∀ g ∈ profitGroupsSorted df, g.margin = marginOf g.profit g.revenue) ∧
    (∀ g ∈ categoryGroupsSorted df, g.margin = marginOf g.profit g.revenue) ∧
    (∀ p r : ℚ, p = 0 → r = 0 → marginOf p r = PVal.num 0) ∧
    (totalRevenueOf df = 0 → summaryOverallMargin df = 0) := by
  refine ⟨?_, ?_, ?_, ?_, ?_⟩
  · intro g hg
    obtain ⟨k, hk, rfl⟩ := List.mem_map.mp (mem_sortByB.mp hg)
    rfl
  · intro g hg
    obtain ⟨k, hk, rfl⟩ := List.mem_map.mp (mem_sortByB.mp hg)
    rfl
  · intro g hg
    obtain ⟨k, hk, rfl⟩ := List.mem_map.mp (mem_sortByB.mp hg)
    rfl
  · intro p r hp hr
    subst hp
    subst hr
    with_unfolding_all decide
  · intro h
    simp [summaryOverallMargin, h]

/-- C3 witness: the zero-over-zero group margin resolves to 0. -/
theorem c3_witness : marginOf 0 0 = PVal.num 0 :=
  (c3_margin_guard dfEmpty).2.2.2.1 0 0 rfl rfl

/-- C4: on a table lacking 'Region' or 'Revenue', the Regional
routine soft-fails with a message containing "requires" and neither a
chart nor a table, raising nothing. -/
theorem c4_regional_soft_failure (df : DF)
    (h : df.hasCol "Region" = false ∨ df.hasCol "Revenue" = false) :
    analyze_regional_performance df
      = .ok { text := regionalMissingMsg, chart := none, table := none } ∧
    pyIn "requires" regionalMissingMsg.toList = true := by
  constructor
  · rcases h with h | h <;> simp [analyze_regional_performance, h]
  · decide

/-- C4 witness: the empty table lacks 'Region'. -/
theorem c4_witness :
    analyze_regional_performance dfEmpty
      = .ok { text := regionalMissingMsg, chart := none, table := none } :=
  (c4_regional_soft_failure dfEmpty (Or.inl rfl)).1

/-- C5 (code bug): after two chart-producing turns, both assistant
messages still hold live charts.  The cleanup deletes the payload keys
of `messages[-2]`, which after the append is the triggering user
message, so the earlier assistant message keeps its chart and the
claimed at-most-one-live-chart invariant fails. -/
theorem c5_two_live_charts :
    liveCharts (chatRun dfChat ["show regional revenue", "regional profit details"]) = 2 := by
  with_unfolding_all decide

/-- C9: the Inventory routine restricts to rows with non-null
inventory and answers "no data available" when none remain; otherwise
its low-stock count is exactly the number of retained values at or
below the 25th-percentile threshold; on the values
[100, 200, 300, 400] the threshold is 175 and the count is 1. -/
theorem c9_inventory_lowstock (df : DF)
    (h1 : df.hasCol "Inventory_Level" = true)
    (h2 : df.hasCol "Category_Department" = true) :
    (invFiltered df = [] →
      analyze_inventory df = .ok { text := invNoDataMsg, chart := none, table := none }) ∧
    (invFiltered df ≠ [] → analyze_inventory df = .ok (invOkResult df)) ∧
    lowStockCount df
      = ((invValues df).filter (fun v => decide (v ≤ quantile25 (invValues df)))).length ∧
    invValues dfInv = [100, 200, 300, 400] ∧
    lowStockThreshold dfInv = 175 ∧
    lowStockCount dfInv = 1 := by
  refine ⟨?_, ?_, rfl, ?_, ?_, ?_⟩
  · intro h
    simp [analyze_inventory, h1, h2, h]
  · intro h
    simp [analyze_inventory, h1, h2, h]
  · with_unfolding_all decide
  · with_unfolding_all decide
  · with_unfolding_all decide

/-- C9 witness: the spec's example table. -/
theorem c9_witness : lowStockCount dfInv = 1 :=
  (c9_inventory_lowstock dfInv rfl rfl).2.2.2.2.2

/-- C10: the accepted Margin routine's chart and secondary table are
the first 10 groups of the margin-descending sort (so at most 10
groups even when more exist), and the text enumerates only the first
5. -/
theorem c10_margin_truncation (df : DF)
    (h1 : df.hasCol "Profit" = true) (h2 : df.hasCol "Revenue" = true)
    (h3 : df.hasCol (profitGroupCol df) = true)
    (h4 : df.hasCol "Units_Sold" = true)
    (h5 : profitGroups df ≠ []) :
    analyze_profit_margins df = .ok (profitOkResult df) ∧
    (profitOkResult df).table = some (profitTableOf ((profitGroupsSorted df).take 10)) ∧
    (profitOkResult df).chart
      = some (ChartSpec.mk "bar"
          (((profitGroupsSorted df).take 10).map (fun g => (cellStr g.key, g.margin)))) ∧
    (profitOkResult df).text = profitTextFor ((profitGroupsSorted df).headD sgDefault)
      (pvMean ((profitGroupsSorted df).map (fun g => g.margin)))
      ((profitGroupsSorted df).take 5) ∧
    (profitTableOf ((profitGroupsSorted df).take 10)).length
      = min 10 (profitGroupsSorted df).length := by
  refine ⟨?_, rfl, rfl, rfl, ?_⟩
  · simp [analyze_profit_margins, h1, h2, h3, h4, h5]
  · simp [profitTableOf, List.length_take]

/-- C10 witness: eleven distinct product groups; the table keeps 10. -/
theorem c10_witness :
    (profitTableOf ((profitGroupsSorted dfEleven).take 10)).length
      = min 10 (profitGroupsSorted dfEleven).length :=
  (c10_margin_truncation dfEleven rfl rfl rfl rfl
    (by with_unfolding_all decide)).2.2.2.2
